import Mathlib

/-!
Shallow embedding of the `cn` (ceph-nano) lifecycle CLI core in Lean 4,
with theorems about its container state classification, readiness polling,
port allocation, network selection, image metadata resolution and purge
logic.  The container engine (Docker) is modelled as explicit data passed
to each function: a listing function, an inspection record, a log stream
per fetch, an HTTP probe outcome per attempt, and so on.  Go byte-string
slicing is modelled with `String.drop` / `List.drop`; Go runtime panics on
out-of-range slicing or indexing are modelled as `none` / `Option`.
-/

/-- Observation of one container as reported by the engine `ContainerList`
call: its name strings (the engine reports names with a leading slash) and
its state string. -/
structure DockerContainer where
  names : List String
  state : String
deriving DecidableEq

/-- Embedding of `containerStatus` (status command file).  The engine is a
function from the `All` flag of the list options to the container list it
reports.  Returns true when some reported container carries the name
`"/" ++ ContainerName` and is in state `containerState`. -/
def containerStatus (engine : Bool → List DockerContainer)
    (containerName : String) (allList : Bool) (containerState : String) : Bool :=
  (engine allList).any fun c =>
    c.names.any fun nm => nm == "/" ++ containerName && c.state == containerState

/-- Embedding of `notExistCheck`: the command terminates (exit 0) exactly
when the container is in neither `running` nor `exited` state.  The result
is `true` when the command terminates. -/
def notExistCheck (engine : Bool → List DockerContainer) (containerName : String) : Bool :=
  !containerStatus engine containerName false "running"
    && !containerStatus engine containerName false "exited"

/-- The State Classifier existence check, the positive form of the
condition tested by `notExistCheck`: the container exists when it is
observed in state `running` or `exited`. -/
def existsCheck (engine : Bool → List DockerContainer) (containerName : String) : Bool :=
  containerStatus engine containerName false "running"
    || containerStatus engine containerName false "exited"

/-- Embedding of `strings.Contains` on the log content, specialised to the
readiness marker search of `grepForSuccess`. -/
def grepForSuccess (logContent : String) : Bool :=
  decide ("SUCCESS".data <:+: logContent.data)

/-- The common poll-loop shape of `cephNanoHealth` and `cephNanoS3Health`:
`for poll < timeout { if check(poll) { return }; sleep; poll++ }`.
Returns the number of checks performed and the attempt index (0-based) at
which the check first succeeded, or `none` when the fuel (remaining
attempts) ran out. -/
def healthLoop (check : Nat → Bool) : Nat → Nat → Nat × Option Nat
  | 0, _ => (0, none)
  | fuel+1, poll =>
      if check poll then (1, some poll)
      else ((healthLoop check fuel (poll+1)).1 + 1, (healthLoop check fuel (poll+1)).2)

/-- Outcome of one `cephNanoHealth` run: how many log polls were made,
the successful attempt index if any, and the log content dumped before the
fatal termination when the marker never appeared. -/
structure HealthRun where
  polls : Nat
  success : Option Nat
  dump : Option String
deriving DecidableEq

/-- Embedding of `cephNanoHealth`: up to 60 poll attempts of
`grepForSuccess` over the log stream (`logs i` is the content of the
i-th log fetch); on exhaustion the code fetches the logs once more,
prints them and terminates fatally (`dump = some (logs 60)`). -/
def cephNanoHealth (logs : Nat → String) : HealthRun :=
  { polls := (healthLoop (fun i => grepForSuccess (logs i)) 60 0).1
    success := (healthLoop (fun i => grepForSuccess (logs i)) 60 0).2
    dump :=
      match (healthLoop (fun i => grepForSuccess (logs i)) 60 0).2 with
      | some _ => none
      | none => some (logs 60) }

/-- Embedding of `curlTestURL`: the probe outcome is `none` when the HTTP
GET itself errors (no status delivered) and `some b` when a response
arrived, `b` recording whether the body was fully readable. -/
def curlTestURL (resp : Option Bool) : Bool :=
  match resp with
  | none => false
  | some bodyReadable => bodyReadable

/-- Outcome of one `cephNanoS3Health` run: number of HTTP probes, the
successful attempt index if any, and whether the S3 gateway logs were
shown (which happens exactly on the fatal path). -/
structure S3Run where
  polls : Nat
  success : Option Nat
  dumpedS3Logs : Bool
deriving DecidableEq

/-- Embedding of the polling part of `cephNanoS3Health`: up to 30 HTTP GET
attempts (`http i` is the outcome of the i-th probe); on exhaustion the S3
logs are shown and the process terminates fatally. -/
def cephNanoS3Health (http : Nat → Option Bool) : S3Run :=
  { polls := (healthLoop (fun i => curlTestURL (http i)) 30 0).1
    success := (healthLoop (fun i => curlTestURL (http i)) 30 0).2
    dumpedS3Logs := (healthLoop (fun i => curlTestURL (http i)) 30 0).2.isNone }

/-- The URL `cephNanoS3Health` probes: `"http://" + ips[0].String() + ":" + RgwPort`. -/
def mkS3Url (addr port : String) : String :=
  "http://" ++ addr ++ ":" ++ port

/-- An IPv4 address as four octets; `d` is the last octet, the one read
by `byLastOctetValue.Less` as `[]byte(n[i].To4())[3]`. -/
structure IPv4 where
  a : Nat
  b : Nat
  c : Nat
  d : Nat
deriving DecidableEq

/-- The advertised address chosen by `cephNanoS3Health` and `echoInfo`:
element 0 of the interface address list.  The Go expression `ips[0]`
panics on an empty slice; the model records that the access has no
defined result there by returning `none`. -/
def s3AdvertiseAddr (ips : List IPv4) : Option IPv4 := ips.head?

/-- Embedding of `checkPortInUsed`: `dialSucceeds port` tells whether the
1-second TCP connection attempt to `0.0.0.0:port` succeeds; the function
answers `true` (port usable/free) exactly when the dial errors. -/
def checkPortInUsed (dialSucceeds : Nat → Bool) (portNum : Nat) : Bool :=
  if dialSucceeds portNum then false else true

/-- The scan loop of `generateRGWPortToUse`:
`for i := 8000; i <= maxPort; i++ { if checkPortInUsed(i) { return i } }`. -/
def portScanLoop (dialSucceeds : Nat → Bool) : Nat → Nat → String
  | 0, _ => "notfound"
  | fuel+1, i =>
      if checkPortInUsed dialSucceeds i then toString i
      else portScanLoop dialSucceeds fuel (i+1)

/-- Embedding of `generateRGWPortToUse`: scan ports 8000..8100 (101
candidates) in ascending order, returning the sentinel when none is free. -/
def generateRGWPortToUse (dialSucceeds : Nat → Bool) : String :=
  portScanLoop dialSucceeds 101 8000

/-- The ordering used after `sort.Reverse(byLastOctetValue(nips))`:
`x` comes before `y` when the last octet of `y` is at most that of `x`
(descending by last octet). -/
def lastOctetGe (x y : IPv4) : Prop := y.d ≤ x.d

instance lastOctetGe.decRel : DecidableRel lastOctetGe :=
  fun x y => inferInstanceAs (Decidable (y.d ≤ x.d))

instance lastOctetGe.total : IsTotal IPv4 lastOctetGe :=
  ⟨fun x y => Nat.le_total y.d x.d⟩

instance lastOctetGe.trans : IsTrans IPv4 lastOctetGe :=
  ⟨fun _ _ _ hxy hyz => Nat.le_trans hyz hxy⟩

/-- The sort performed by `sort.Sort(sort.Reverse(byLastOctetValue(nips)))`,
modelled with insertion sort under the reversed comparator. -/
def sortByLastOctetDesc (l : List IPv4) : List IPv4 :=
  List.insertionSort lastOctetGe l

/-- One entry of `net.InterfaceAddrs()` as seen by `getInterfaceIPv4s`:
its network kind string, and the result of `net.ParseCIDR` followed by
`To4()` — `none` when parsing fails (the function then errors), `some
none` when the address parses but is not IPv4 (`To4() == nil`, skipped),
and `some (some ip)` for an IPv4 address. -/
structure IfaceAddr where
  network : String
  cidrParse : Option (Option IPv4)
deriving DecidableEq

/-- The collection loop of `getInterfaceIPv4s`: keep entries of network
kind `"ip+net"` whose CIDR parse yields an IPv4; a parse failure aborts
with an error. -/
def collectIPv4s : List IfaceAddr → Except String (List IPv4)
  | [] => Except.ok []
  | addr :: rest =>
      if addr.network = "ip+net" then
        match addr.cidrParse with
        | none => Except.error "Unable to parse address"
        | some none => collectIPv4s rest
        | some (some nip) =>
            match collectIPv4s rest with
            | Except.error e => Except.error e
            | Except.ok nips => Except.ok (nip :: nips)
      else collectIPv4s rest

/-- Embedding of `getInterfaceIPv4s`: `none` input models
`net.InterfaceAddrs()` failing (the function then returns an error);
otherwise collate the IPv4 addresses and sort them descending by last
octet value. -/
def getInterfaceIPv4s (addrs : Option (List IfaceAddr)) : Except String (List IPv4) :=
  match addrs with
  | none => Except.error "Unable to determine network interface address."
  | some l =>
      match collectIPv4s l with
      | Except.error e => Except.error e
      | Except.ok nips => Except.ok (sortByLastOctetDesc nips)

/-- Image metadata as returned by `ImageInspectWithRaw`; `labels` models
the Go map `ContainerConfig.Labels` (a missing key reads as `""`). -/
structure ImageMeta where
  repoTags : List String
  repoDigests : List String
  created : String
  labels : String → String

/-- Embedding of `inspectImage`.  The engine image lookup is a function
from image ID to image metadata; `none` models `ImageInspectWithRaw`
returning an error, on which the not-present sentinel is returned
instead of raising. -/
def inspectImage (images : String → Option ImageMeta) (imageID dataType : String) : String :=
  match images imageID with
  | none => "image is not present, did you remove it?"
  | some i =>
      if dataType = "tag" then
        if i.repoTags.length = 0 then String.join i.repoDigests
        else String.join i.repoTags
      else if dataType = "created" then i.created
      else if (i.labels "RELEASE").length = 0 then
        "unknown image release, are you running an official image?"
      else i.labels "RELEASE"

/-- The parts of a `ContainerInspect` response read by `dockerInspect`. -/
structure ContainerInspect where
  hostConfigBinds : List String
  configEnv : List String
  configImage : String

/-- Embedding of `dockerInspect`.  The Go code indexes `Binds[0]`,
`Env[0]` and `parts[1]` without guards; those partial accesses are
modelled with `Option`, `none` standing for the runtime panic. -/
def dockerInspect (inspect : ContainerInspect) (pattern : String) : Option String :=
  if pattern = "Binds" then
    inspect.hostConfigBinds.head?.map (fun b => (b.splitOn ":").headI)
  else if pattern = "PortBindings" then
    inspect.configEnv.head?.bind (fun e => (e.splitOn "=").get? 1)
  else
    some inspect.configImage

/-- Observable outcome of a `purge` invocation: the process exit code,
the container removal calls made and the image removal calls made. -/
structure PurgeOutcome where
  exitCode : Nat
  removedContainers : List String
  removedImages : List String
deriving DecidableEq

/-- Embedding of `removeContainer` (purge.go): always issue the container
removal; when the delete-all flag is set, resolve the image from the
container inspection and issue the image removal too.  The two boolean
arguments say whether the respective engine removal call returns an
error; the code discards both results, so they influence nothing. -/
def removeContainer (deleteAll : Bool) (inspect : ContainerInspect)
    (containerName : String) ( _cRemoveErr _iRemoveErr : Bool) :
    List String × List String :=
  ([containerName],
   if deleteAll then [(dockerInspect inspect "image").getD ""] else [])

/-- Embedding of `purgeNano` (purge.go): without the confirmation flag,
print guidance and exit 1 with no removal call; otherwise run
`notExistCheck` (exit 0 without removals when the cluster does not
exist) and then `removeContainer`. -/
def purgeNano (iAmSure deleteAll : Bool) (engine : Bool → List DockerContainer)
    (inspect : ContainerInspect) (pfx arg : String) ( cRemoveErr iRemoveErr : Bool) :
    PurgeOutcome :=
  if !iAmSure then ⟨1, [], []⟩
  else if notExistCheck engine (pfx ++ arg) then ⟨0, [], []⟩
  else
    ⟨0, (removeContainer deleteAll inspect (pfx ++ arg) cRemoveErr iRemoveErr).1,
        (removeContainer deleteAll inspect (pfx ++ arg) cRemoveErr iRemoveErr).2⟩

/-- Embedding of `ContainerNamePrefix + args[0]`: forming the
engine-facing container name from the logical cluster name. -/
def resolveContainerName (pfx logicalName : String) : String :=
  pfx ++ logicalName

/-- The display-name stripping of `purgeNano` / `statusNano`:
`ContainerName[len(ContainerNamePrefix):]`. -/
def purgeDisplayName (pfx containerName : String) : String :=
  containerName.drop pfx.length

/-- The display-name stripping of `showNanoClusters` applied to an
engine-reported name (which carries a leading `/`):
`container.Names[i][len(ContainerNamePrefix):]` followed by `[1:]`. -/
def lsDisplayName (pfx reportedName : String) : String :=
  (reportedName.drop pfx.length).drop 1

/-- Go slice expression `output[low:]` on a byte slice: defined only when
`low ≤ len(output)`, otherwise the program panics (modelled as `none`). -/
def goSliceFrom (output : List Nat) (low : Nat) : Option (List Nat) :=
  if low ≤ output.length then some (output.drop low) else none

/-- Embedding of the output handling of `execContainer`: when the
attached exec output is non-empty, return `output[8:]`; otherwise return
nil (modelled as `some []`).  `none` models the slice-bounds panic. -/
def execContainer (output : List Nat) : Option (List Nat) :=
  if output.length > 0 then goSliceFrom output 8
  else some []

/-- Events of the readiness orchestration of `echoInfo`, for phase
ordering: a log poll attempt, internal health reached, internal fatal
timeout, an HTTP poll attempt, external health reached, external fatal
timeout. -/
inductive Event where
  | internalPoll : Nat → Event
  | internalHealthy : Event
  | internalFatal : Event
  | externalPoll : Nat → Event
  | externalHealthy : Event
  | externalFatal : Event
deriving DecidableEq

/-- Event trace of one bounded poll loop: each iteration emits its poll
event; the first success emits the healthy event and stops; fuel
exhaustion emits the fatal event. -/
def pollTrace (check : Nat → Bool) (mkPoll : Nat → Event) (okEv fatalEv : Event) :
    Nat → Nat → List Event
  | 0, _ => [fatalEv]
  | fuel+1, poll =>
      if check poll then [mkPoll poll, okEv]
      else mkPoll poll :: pollTrace check mkPoll okEv fatalEv fuel (poll+1)

/-- Event trace of the health part of `echoInfo`: `cephNanoHealth` runs
first; only when it returns (rather than terminating the process
fatally) does `cephNanoS3Health` run. -/
def echoInfoHealthTrace (logs : Nat → String) (http : Nat → Option Bool) : List Event :=
  if (healthLoop (fun i => grepForSuccess (logs i)) 60 0).2.isSome then
    pollTrace (fun i => grepForSuccess (logs i))
        Event.internalPoll Event.internalHealthy Event.internalFatal 60 0
      ++ pollTrace (fun i => curlTestURL (http i))
          Event.externalPoll Event.externalHealthy Event.externalFatal 30 0
  else
    pollTrace (fun i => grepForSuccess (logs i))
        Event.internalPoll Event.internalHealthy Event.internalFatal 60 0

/-- Recogniser for external (HTTP) poll events. -/
def isExternalPoll : Event → Bool
  | Event.externalPoll _ => true
  | _ => false

/-! ## Helper lemmas -/

theorem containerStatus_iff (engine : Bool → List DockerContainer)
    (cn : String) (allList : Bool) (st : String) :
    containerStatus engine cn allList st = true ↔
      ∃ c ∈ engine allList, ("/" ++ cn) ∈ c.names ∧ c.state = st := by
  simp only [containerStatus, List.any_eq_true, Bool.and_eq_true, beq_iff_eq]
  constructor
  · rintro ⟨c, hc, nm, hnm, h1, h2⟩
    exact ⟨c, hc, h1 ▸ hnm, h2⟩
  · rintro ⟨c, hc, hnm, h2⟩
    exact ⟨c, hc, _, hnm, rfl, h2⟩

theorem notExistCheck_eq_not_existsCheck (engine : Bool → List DockerContainer)
    (cn : String) :
    notExistCheck engine cn = !existsCheck engine cn := by
  simp [notExistCheck, existsCheck, Bool.not_or]

theorem healthLoop_found (check : Nat → Bool) :
    ∀ fuel poll j, poll ≤ j → j < poll + fuel → check j = true →
      (∀ i, poll ≤ i → i < j → check i = false) →
      healthLoop check fuel poll = (j + 1 - poll, some j) := by
  intro fuel
  induction fuel with
  | zero => intro poll j h1 h2; omega
  | succ f ih =>
    intro poll j h1 h2 hj hmin
    rw [healthLoop]
    by_cases hc : check poll = true
    · have : j = poll := by
        by_contra hne
        have hlt : poll < j := by omega
        exact absurd hc (by simpa using hmin poll le_rfl hlt)
      subst this
      simp [hc]
    · simp only [hc, if_false]
      have hpj : poll < j := by
        rcases Nat.lt_or_ge poll j with h | h
        · exact h
        · have : j = poll := by omega
          subst this
          exact absurd hj hc
      rw [ih (poll+1) j (by omega) (by omega) hj (fun i hi1 hi2 => hmin i (by omega) hi2)]
      simp
      omega

theorem healthLoop_none (check : Nat → Bool) :
    ∀ fuel poll, (∀ i, poll ≤ i → i < poll + fuel → check i = false) →
      healthLoop check fuel poll = (fuel, none) := by
  intro fuel
  induction fuel with
  | zero => intro poll _; rw [healthLoop]
  | succ f ih =>
    intro poll h
    rw [healthLoop]
    have hc : check poll = false := h poll le_rfl (by omega)
    rw [ih (poll+1) (fun i h1 h2 => h i (by omega) (by omega))]
    simp [hc]

theorem checkPortInUsed_eq (dial : Nat → Bool) (p : Nat) :
    checkPortInUsed dial p = !dial p := by
  cases h : dial p <;> simp [checkPortInUsed, h]

theorem portScanLoop_found (dial : Nat → Bool) :
    ∀ fuel start k, start ≤ k → k < start + fuel → dial k = false →
      (∀ i, start ≤ i → i < k → dial i = true) →
      portScanLoop dial fuel start = toString k := by
  intro fuel
  induction fuel with
  | zero => intro start k h1 h2; omega
  | succ f ih =>
    intro start k h1 h2 hk hmin
    rw [portScanLoop, checkPortInUsed_eq]
    by_cases hc : dial start = true
    · simp only [hc, Bool.not_true, Bool.false_eq_true, if_false]
      have hsk : start < k := by
        rcases Nat.lt_or_ge start k with h | h
        · exact h
        · have : k = start := by omega
          subst this
          rw [hc] at hk
          exact absurd hk (by simp)
      exact ih (start+1) k (by omega) (by omega) hk (fun i hi1 hi2 => hmin i (by omega) hi2)
    · have : k = start := by
        by_contra hne
        have hlt : start < k := by omega
        exact absurd (hmin start le_rfl hlt) hc
      subst this
      have hd : dial k = false := hk
      simp [hd]

theorem portScanLoop_notfound (dial : Nat → Bool) :
    ∀ fuel start, (∀ i, start ≤ i → i < start + fuel → dial i = true) →
      portScanLoop dial fuel start = "notfound" := by
  intro fuel
  induction fuel with
  | zero => intro start _; rw [portScanLoop]
  | succ f ih =>
    intro start h
    rw [portScanLoop, checkPortInUsed_eq]
    have hc : dial start = true := h start le_rfl (by omega)
    rw [hc]
    simp only [Bool.not_true, Bool.false_eq_true, if_false]
    exact ih (start+1) (fun i h1 h2 => h i (by omega) (by omega))

/-! ## Claims -/

/-- Claim C1: the State Classifier existence check is true exactly when
the engine reports a container named `n` (engine name `"/" ++ n`) whose
state is `running` or `exited`; in particular a container observed in
state `exited` counts as existing and `notExistCheck` does not terminate
the command for it. -/
theorem C1_existsCheck_running_or_exited (engine : Bool → List DockerContainer) (n : String) :
    (existsCheck engine n = true ↔
      ∃ c ∈ engine false, ("/" ++ n) ∈ c.names ∧ (c.state = "running" ∨ c.state = "exited"))
    ∧ ((∃ c ∈ engine false, ("/" ++ n) ∈ c.names ∧ c.state = "exited") →
        notExistCheck engine n = false) := by
  have hiff : existsCheck engine n = true ↔
      ∃ c ∈ engine false, ("/" ++ n) ∈ c.names ∧ (c.state = "running" ∨ c.state = "exited") := by
    simp only [existsCheck, Bool.or_eq_true, containerStatus_iff]
    constructor
    · rintro (⟨c, hc, hnm, h2⟩ | ⟨c, hc, hnm, h2⟩)
      · exact ⟨c, hc, hnm, Or.inl h2⟩
      · exact ⟨c, hc, hnm, Or.inr h2⟩
    · rintro ⟨c, hc, hnm, h2 | h2⟩
      · exact Or.inl ⟨c, hc, hnm, h2⟩
      · exact Or.inr ⟨c, hc, hnm, h2⟩
  refine ⟨hiff, fun h => ?_⟩
  have hex : existsCheck engine n = true := by
    rcases h with ⟨c, hc, hnm, hst⟩
    exact hiff.mpr ⟨c, hc, hnm, Or.inr hst⟩
  rw [notExistCheck_eq_not_existsCheck, hex]
  rfl

/-- Claim C1 witness: a single exited container named `a` exists, and
`notExistCheck` does not terminate the command for it. -/
theorem C1_witness :
    notExistCheck (fun _ => [⟨["/a"], "exited"⟩]) "a" = false :=
  (C1_existsCheck_running_or_exited (fun _ => [⟨["/a"], "exited"⟩]) "a").2
    ⟨⟨["/a"], "exited"⟩, by decide, by decide, rfl⟩

/-- Claim C2: internal-health polling returns successfully at the first
poll attempt (0-based index `j`, so attempt `j+1 ≤ 60`) at which the
marker `SUCCESS` is contained in the container logs, performing exactly
`j+1` polls and no more; when the marker is absent on all 60 attempts it
dumps the log content and terminates the process fatally. -/
theorem C2_cephNanoHealth_first_success (logs : Nat → String) :
    (∀ j, j < 60 → grepForSuccess (logs j) = true →
      (∀ i, i < j → grepForSuccess (logs i) = false) →
      cephNanoHealth logs = ⟨j + 1, some j, none⟩)
    ∧ ((∀ i, i < 60 → grepForSuccess (logs i) = false) →
      cephNanoHealth logs = ⟨60, none, some (logs 60)⟩) := by
  constructor
  · intro j hj hsucc hmin
    have h := healthLoop_found (fun i => grepForSuccess (logs i)) 60 0 j
      (Nat.zero_le j) (by omega) hsucc (fun i _ hi2 => hmin i hi2)
    rw [cephNanoHealth, h]
    simp
  · intro hnone
    have h := healthLoop_none (fun i => grepForSuccess (logs i)) 60 0
      (fun i _ hi2 => hnone i (by omega))
    rw [cephNanoHealth, h]

/-- Claim C2 witness: with the marker first visible on the third fetch
(index 2), the run makes exactly 3 polls, succeeds at index 2 and dumps
nothing. -/
theorem C2_witness :
    cephNanoHealth (fun i => if i < 2 then "starting" else "osd SUCCESS") =
      ⟨3, some 2, none⟩ :=
  (C2_cephNanoHealth_first_success (fun i => if i < 2 then "starting" else "osd SUCCESS")).1
    2 (by decide) (by decide)
    (fun i hi => by interval_cases i <;> decide)

/-- Claim C4: the Port Allocator scans 8000..8100 inclusive in ascending
order and returns the decimal string of the first port whose connection
attempt fails (`dial k = false`); when the connection succeeds for every
port in the range it returns the sentinel `"notfound"`. -/
theorem C4_generateRGWPortToUse_first_free (dial : Nat → Bool) :
    ((∀ i, 8000 ≤ i → i ≤ 8100 → dial i = true) →
      generateRGWPortToUse dial = "notfound")
    ∧ (∀ k, 8000 ≤ k → k ≤ 8100 → dial k = false →
        (∀ i, 8000 ≤ i → i < k → dial i = true) →
        generateRGWPortToUse dial = toString k) := by
  constructor
  · intro h
    exact portScanLoop_notfound dial 101 8000 (fun i h1 h2 => h i h1 (by omega))
  · intro k hk1 hk2 hk3 hmin
    exact portScanLoop_found dial 101 8000 k hk1 (by omega) hk3 hmin

/-- Claim C4 witness: when every port below 8005 accepts the connection
and 8005 refuses it, the allocator returns exactly `"8005"`. -/
theorem C4_witness :
    generateRGWPortToUse (fun i => !(i == 8005)) = "8005" :=
  (C4_generateRGWPortToUse_first_free (fun i => !(i == 8005))).2
    8005 (by decide) (by decide) (by decide)
    (fun i h1 h2 => by simp; omega)

theorem sortByLastOctetDesc_chain (l : List IPv4) :
    List.Chain' (fun x y : IPv4 => y.d ≤ x.d) (sortByLastOctetDesc l) := by
  have hs : List.Sorted lastOctetGe (sortByLastOctetDesc l) :=
    List.sorted_insertionSort lastOctetGe l
  exact List.Pairwise.chain' hs

theorem collectIPv4s_all_skipped :
    ∀ addrs : List IfaceAddr,
      (∀ a ∈ addrs, a.network = "ip+net" → a.cidrParse = some none) →
      collectIPv4s addrs = Except.ok [] := by
  intro addrs
  induction addrs with
  | nil => intro _; rfl
  | cons a rest ih =>
    intro h
    rw [collectIPv4s]
    by_cases hn : a.network = "ip+net"
    · rw [if_pos hn, h a (List.mem_cons_self a rest) hn]
      exact ih (fun b hb hbn => h b (List.mem_cons_of_mem a hb) hbn)
    · rw [if_neg hn]
      exact ih (fun b hb hbn => h b (List.mem_cons_of_mem a hb) hbn)

/-- Claim C5: the Network Selector returns the collected IPv4 addresses
sorted descending by the numeric value of the last octet — every output
element has a last octet at least that of its successor — and on inputs
with last octets `[1, 200, 50]` it yields the order `[200, 50, 1]`. -/
theorem C5_getInterfaceIPv4s_sorted_desc :
    (∀ addrs l, getInterfaceIPv4s (some addrs) = Except.ok l →
      List.Chain' (fun x y : IPv4 => y.d ≤ x.d) l)
    ∧ getInterfaceIPv4s (some
        [⟨"ip+net", some (some ⟨127, 0, 0, 1⟩)⟩,
         ⟨"ip+net", some (some ⟨192, 168, 1, 200⟩)⟩,
         ⟨"ip+net", some (some ⟨10, 0, 0, 50⟩)⟩]) =
      Except.ok [⟨192, 168, 1, 200⟩, ⟨10, 0, 0, 50⟩, ⟨127, 0, 0, 1⟩] := by
  constructor
  · intro addrs l hl
    simp only [getInterfaceIPv4s] at hl
    cases hcol : collectIPv4s addrs with
    | error e => rw [hcol] at hl; exact absurd hl (by simp)
    | ok nips =>
      rw [hcol] at hl
      have hls : l = sortByLastOctetDesc nips := by
        simpa using hl.symm
      rw [hls]
      exact sortByLastOctetDesc_chain nips
  · rfl

/-- Claim C5 witness: the sortedness statement applied to the concrete
run of the selector on last octets `[1, 200, 50]`. -/
theorem C5_witness :
    List.Chain' (fun x y : IPv4 => y.d ≤ x.d)
      [⟨192, 168, 1, 200⟩, ⟨10, 0, 0, 50⟩, ⟨127, 0, 0, 1⟩] :=
  C5_getInterfaceIPv4s_sorted_desc.1
    [⟨"ip+net", some (some ⟨127, 0, 0, 1⟩)⟩,
     ⟨"ip+net", some (some ⟨192, 168, 1, 200⟩)⟩,
     ⟨"ip+net", some (some ⟨10, 0, 0, 50⟩)⟩]
    [⟨192, 168, 1, 200⟩, ⟨10, 0, 0, 50⟩, ⟨127, 0, 0, 1⟩]
    C5_getInterfaceIPv4s_sorted_desc.2

/-- Claim C6: `inspectImage` never raises on a failed image lookup — it
returns the not-present sentinel for every requested field; for an image
with no repo tags and repo-digest list `["d1"]` the `tag` lookup returns
`"d1"`; and for an image whose `RELEASE` label is absent (empty) the
release lookup returns the unknown-release sentinel. -/
theorem C6_inspectImage_degrades (images : String → Option ImageMeta) (imageID : String) :
    (∀ dataType, images imageID = none →
      inspectImage images imageID dataType = "image is not present, did you remove it?")
    ∧ (∀ m, images imageID = some m → m.repoTags = [] → m.repoDigests = ["d1"] →
      inspectImage images imageID "tag" = "d1")
    ∧ (∀ m, images imageID = some m → m.labels "RELEASE" = "" →
      inspectImage images imageID "release" =
        "unknown image release, are you running an official image?") := by
  refine ⟨fun dataType h => ?_, fun m hm ht hd => ?_, fun m hm hl => ?_⟩
  · simp only [inspectImage, h]
  · simp only [inspectImage, hm]
    rw [if_pos trivial, ht, hd]
    decide
  · simp only [inspectImage, hm]
    rw [if_neg (by decide : ¬("release" = "tag")),
        if_neg (by decide : ¬("release" = "created")), hl]
    decide

/-- Claim C6 witness: a failed lookup yields the not-present sentinel at
a concrete image table. -/
theorem C6_witness :
    inspectImage (fun _ => none) "deadbeef" "tag" =
      "image is not present, did you remove it?" :=
  (C6_inspectImage_degrades (fun _ => none) "deadbeef").1 "tag" rfl

/-- Claim C7: purge invoked without the confirmation flag exits with
failure status 1 and performs no removal call; invoked with the
confirmation flag and the delete-all flag on an existing cluster it
removes the container and also the image resolved from the container
inspection, and the error outcomes of both removal calls (the two final
boolean arguments) never alter the exit status. -/
theorem C7_purgeNano_flags (engine : Bool → List DockerContainer)
    (inspect : ContainerInspect) (pfx arg : String) :
    (∀ deleteAll cErr iErr,
      purgeNano false deleteAll engine inspect pfx arg cErr iErr =
        ⟨1, [], []⟩)
    ∧ (existsCheck engine (pfx ++ arg) = true →
      ∀ cErr iErr,
        purgeNano true true engine inspect pfx arg cErr iErr =
          ⟨0, [pfx ++ arg], [inspect.configImage]⟩) := by
  constructor
  · intro deleteAll cErr iErr
    rfl
  · intro hex cErr iErr
    have hne : notExistCheck engine (pfx ++ arg) = false := by
      rw [notExistCheck_eq_not_existsCheck, hex]
      rfl
    simp only [purgeNano, hne, Bool.not_true, Bool.false_eq_true, if_false]
    simp only [removeContainer, dockerInspect]
    rw [if_neg (by decide : ¬("image" = "Binds")),
        if_neg (by decide : ¬("image" = "PortBindings"))]
    rfl

/-- Claim C7 witness: with confirmation and delete-all on a running
cluster backed by image `img:v1`, both removals are issued, and an error
from the container removal together with a clean image removal still
exits 0. -/
theorem C7_witness :
    purgeNano true true (fun _ => [⟨["/p-a"], "running"⟩])
      ⟨[], [], "img:v1"⟩ "p-" "a" true false =
      ⟨0, ["p-a"], ["img:v1"]⟩ :=
  (C7_purgeNano_flags (fun _ => [⟨["/p-a"], "running"⟩]) ⟨[], [], "img:v1"⟩ "p-" "a").2
    (by decide) true false

/-- Claim C8: prepending the namespace prefix and the display-name
stripping used by the lifecycle commands are exact inverses: the purge
and status commands recover the logical name by dropping the prefix
length, and the listing command recovers it from the engine-reported
name (which carries a leading separator) by dropping the prefix length
and one further character. -/
theorem C8_resolveContainerName_roundTrip (pfx n : String) :
    purgeDisplayName pfx (resolveContainerName pfx n) = n
    ∧ lsDisplayName pfx ("/" ++ resolveContainerName pfx n) = n := by
  constructor
  · apply String.ext
    rw [purgeDisplayName, resolveContainerName, String.drop_eq]
    show List.drop pfx.length (pfx ++ n).data = n.data
    rw [String.data_append]
    have h3 : pfx.length = pfx.data.length := rfl
    rw [h3, List.drop_left]
  · apply String.ext
    rw [lsDisplayName, resolveContainerName, String.drop_eq, String.drop_eq]
    show List.drop 1 (List.drop pfx.length ("/" ++ (pfx ++ n)).data) = n.data
    rw [List.drop_drop]
    have h : ("/" ++ (pfx ++ n)).data = ('/' :: pfx.data) ++ n.data := by
      rw [String.data_append, String.data_append]
      rfl
    rw [h]
    have h2 : pfx.data.length + 1 = ('/' :: pfx.data).length := by
      rw [List.length_cons]
    have h3 : pfx.length = pfx.data.length := rfl
    rw [h3, h2, List.drop_left]

/-- Claim C9: when interface addresses can be read but none qualify as
IPv4, the Network Selector returns an empty sequence and not an error,
and under that precondition the unguarded element-0 access of the
Phase-2 orchestrator has no defined result. -/
theorem C9_getInterfaceIPv4s_empty_not_error (addrs : List IfaceAddr)
    (h : ∀ a ∈ addrs, a.network = "ip+net" → a.cidrParse = some none) :
    getInterfaceIPv4s (some addrs) = Except.ok []
    ∧ ∀ l, getInterfaceIPv4s (some addrs) = Except.ok l → s3AdvertiseAddr l = none := by
  have hc : collectIPv4s addrs = Except.ok [] := collectIPv4s_all_skipped addrs h
  have hmain : getInterfaceIPv4s (some addrs) = Except.ok [] := by
    simp only [getInterfaceIPv4s, hc]
    rfl
  refine ⟨hmain, fun l hl => ?_⟩
  rw [hmain] at hl
  have : ([] : List IPv4) = l := by simpa using hl
  rw [← this]
  rfl

/-- Claim C9 witness: an address list with one non-IPv4 `ip+net` entry
and one non-`ip+net` entry yields the empty sequence, not an error. -/
theorem C9_witness :
    getInterfaceIPv4s (some [⟨"ip+net", some none⟩, ⟨"unix", none⟩]) =
      Except.ok [] :=
  (C9_getInterfaceIPv4s_empty_not_error
    [⟨"ip+net", some none⟩, ⟨"unix", none⟩] (by decide)).1

/-- Claim C10: `execContainer` returns nil for empty attached output and
strips exactly the first 8 bytes otherwise; since its guard only checks
non-emptiness, for every output of length 1 through 7 the slice
`output[8:]` is out of bounds and the function has no defined result. -/
theorem C10_execContainer_guard_gap (output : List Nat) :
    (execContainer [] = some [])
    ∧ (8 ≤ output.length → execContainer output = some (output.drop 8))
    ∧ (1 ≤ output.length → output.length ≤ 7 → execContainer output = none) := by
  refine ⟨rfl, fun h => ?_, fun h1 h2 => ?_⟩
  · simp only [execContainer, goSliceFrom]
    rw [if_pos (by omega : output.length > 0), if_pos h]
  · simp only [execContainer, goSliceFrom]
    rw [if_pos (by omega : output.length > 0), if_neg (by omega : ¬(8 ≤ output.length))]

/-- Claim C10 witness: a 3-byte output slips past the non-empty guard
and the 8-byte strip is out of bounds. -/
theorem C10_witness : execContainer [1, 2, 3] = none :=
  (C10_execContainer_guard_gap [1, 2, 3]).2.2 (by decide) (by decide)

theorem pollTrace_mem (check : Nat → Bool) (mkPoll : Nat → Event) (okEv fatalEv : Event) :
    ∀ fuel poll e, e ∈ pollTrace check mkPoll okEv fatalEv fuel poll →
      (∃ i, e = mkPoll i) ∨ e = okEv ∨ e = fatalEv := by
  intro fuel
  induction fuel with
  | zero =>
    intro poll e he
    rw [pollTrace] at he
    exact Or.inr (Or.inr (List.mem_singleton.mp he))
  | succ f ih =>
    intro poll e he
    rw [pollTrace] at he
    by_cases hc : check poll = true
    · rw [if_pos hc] at he
      rcases List.mem_cons.mp he with h | h
      · exact Or.inl ⟨poll, h⟩
      · exact Or.inr (Or.inl (List.mem_singleton.mp h))
    · rw [if_neg hc] at he
      rcases List.mem_cons.mp he with h | h
      · exact Or.inl ⟨poll, h⟩
      · exact ih (poll+1) e h

theorem pollTrace_ok_mem (check : Nat → Bool) (mkPoll : Nat → Event) (okEv fatalEv : Event) :
    ∀ fuel poll, (healthLoop check fuel poll).2.isSome = true →
      okEv ∈ pollTrace check mkPoll okEv fatalEv fuel poll := by
  intro fuel
  induction fuel with
  | zero =>
    intro poll h
    rw [healthLoop] at h
    simp at h
  | succ f ih =>
    intro poll h
    rw [pollTrace]
    by_cases hc : check poll = true
    · rw [if_pos hc]
      exact List.mem_cons_of_mem _ (List.mem_singleton_self _)
    · rw [if_neg hc]
      rw [healthLoop, if_neg hc] at h
      exact List.mem_cons_of_mem _ (ih (poll+1) h)

theorem pollTrace_countP_le (check : Nat → Bool) (mkPoll : Nat → Event)
    (okEv fatalEv : Event) (p : Event → Bool)
    (hok : p okEv = false) (hfat : p fatalEv = false) :
    ∀ fuel poll, List.countP p (pollTrace check mkPoll okEv fatalEv fuel poll) ≤ fuel := by
  intro fuel
  induction fuel with
  | zero =>
    intro poll
    rw [pollTrace]
    simp [List.countP_cons, List.countP_nil, hfat]
  | succ f ih =>
    intro poll
    rw [pollTrace]
    by_cases hc : check poll = true
    · rw [if_pos hc]
      have h2 : List.countP p [mkPoll poll, okEv] ≤ 1 := by
        by_cases hp : p (mkPoll poll) = true <;>
          simp [List.countP_cons, List.countP_nil, hok, hp]
      omega
    · rw [if_neg hc, List.countP_cons]
      have h2 := ih (poll+1)
      by_cases hp : p (mkPoll poll) = true <;> simp [hp] <;> omega

theorem pollTrace_internal_no_external (check : Nat → Bool) (fuel poll : Nat) :
    List.countP isExternalPoll
      (pollTrace check Event.internalPoll Event.internalHealthy Event.internalFatal fuel poll)
      = 0 := by
  rw [List.countP_eq_zero]
  intro e he
  rcases pollTrace_mem check Event.internalPoll Event.internalHealthy Event.internalFatal
      fuel poll e he with ⟨i, h⟩ | h | h <;>
    subst h <;> simp [isExternalPoll]

/-- Claim C3: external-health polling never starts before internal-health
polling has returned successfully — every external poll event in the
`echoInfo` trace is preceded by the internal-healthy event; the external
phase performs at most 30 HTTP GET attempts, succeeds at the first
attempt whose response status is delivered with a fully readable body,
and otherwise shows the gateway log stream and terminates fatally. -/
theorem C3_phase2_after_phase1 (logs : Nat → String) (http : Nat → Option Bool) :
    (∀ i n, (echoInfoHealthTrace logs http).get? i = some (Event.externalPoll n) →
      ∃ k, k < i ∧ (echoInfoHealthTrace logs http).get? k = some Event.internalHealthy)
    ∧ List.countP isExternalPoll (echoInfoHealthTrace logs http) ≤ 30
    ∧ (∀ j, j < 30 → curlTestURL (http j) = true →
        (∀ i, i < j → curlTestURL (http i) = false) →
        cephNanoS3Health http = ⟨j + 1, some j, false⟩)
    ∧ ((∀ i, i < 30 → curlTestURL (http i) = false) →
        cephNanoS3Health http = ⟨30, none, true⟩) := by
  refine ⟨?_, ?_, ?_, ?_⟩
  · intro i n hi
    by_cases hs : (healthLoop (fun t => grepForSuccess (logs t)) 60 0).2.isSome = true
    · rw [echoInfoHealthTrace, if_pos hs] at hi
      by_cases hlt : i < (pollTrace (fun t => grepForSuccess (logs t))
          Event.internalPoll Event.internalHealthy Event.internalFatal 60 0).length
      · rw [List.get?_append hlt] at hi
        rcases pollTrace_mem _ _ _ _ _ _ _ (List.get?_mem hi) with ⟨i', h⟩ | h | h
        · exact Event.noConfusion h
        · exact Event.noConfusion h
        · exact Event.noConfusion h
      · push_neg at hlt
        have hok : Event.internalHealthy ∈ pollTrace (fun t => grepForSuccess (logs t))
            Event.internalPoll Event.internalHealthy Event.internalFatal 60 0 :=
          pollTrace_ok_mem _ _ _ _ 60 0 hs
        obtain ⟨k, hk⟩ := List.mem_iff_get?.mp hok
        have hklt : k < (pollTrace (fun t => grepForSuccess (logs t))
            Event.internalPoll Event.internalHealthy Event.internalFatal 60 0).length := by
          rcases List.get?_eq_some.mp hk with ⟨hb, _⟩
          exact hb
        refine ⟨k, by omega, ?_⟩
        rw [echoInfoHealthTrace, if_pos hs, List.get?_append hklt]
        exact hk
    · rw [echoInfoHealthTrace, if_neg hs] at hi
      rcases pollTrace_mem _ _ _ _ _ _ _ (List.get?_mem hi) with ⟨i', h⟩ | h | h
      · exact Event.noConfusion h
      · exact Event.noConfusion h
      · exact Event.noConfusion h
  · by_cases hs : (healthLoop (fun t => grepForSuccess (logs t)) 60 0).2.isSome = true
    · rw [echoInfoHealthTrace, if_pos hs, List.countP_append]
      have h1 := pollTrace_internal_no_external (fun t => grepForSuccess (logs t)) 60 0
      have h2 := pollTrace_countP_le (fun t => curlTestURL (http t)) Event.externalPoll
        Event.externalHealthy Event.externalFatal isExternalPoll rfl rfl 30 0
      omega
    · rw [echoInfoHealthTrace, if_neg hs]
      have h1 := pollTrace_internal_no_external (fun t => grepForSuccess (logs t)) 60 0
      omega
  · intro j hj hsucc hmin
    have h := healthLoop_found (fun t => curlTestURL (http t)) 30 0 j
      (Nat.zero_le j) (by omega) hsucc (fun t _ ht2 => hmin t ht2)
    rw [cephNanoS3Health, h]
    simp
  · intro hnone
    have h := healthLoop_none (fun t => curlTestURL (http t)) 30 0
      (fun t _ ht2 => hnone t (by omega))
    rw [cephNanoS3Health, h]
    rfl

/-- Claim C3 witness: with an HTTP probe that succeeds immediately, the
external phase succeeds at its first attempt after one probe, showing no
gateway logs. -/
theorem C3_witness :
    cephNanoS3Health (fun _ => some true) = ⟨1, some 0, false⟩ :=
  (C3_phase2_after_phase1 (fun _ => "SUCCESS") (fun _ => some true)).2.2.1 0 (by decide) rfl
    (fun i hi => absurd hi (Nat.not_lt_zero i))
